import Mathlib

set_option maxHeartbeats 1000000

/-
Verification of the `UIBaseElement` clickable widget
(src/src/renderable/ui/uibaseelement.js).

The widget is embedded shallowly: its mutable fields become a structure,
each pointer-event callback becomes a pure function from state to a new
state together with an effect trace (hook invocations, timer-service and
registry calls) and a return value.  The external timer service
(system/timer.js, not part of the provided sources) is modelled from the
spec as an explicit scheduler state; the pointer-event registry
(input/input.js) is recorded in traces only, since the widget only emits
calls to it.
-/

namespace UIBase

/-- The five pointer-event names used by the widget. -/
inductive PEvent where
  | pointerdown
  | pointerup
  | pointercancel
  | pointerenter
  | pointerleave
  deriving DecidableEq, Repr

/-- Which widget callback a registration binds (the arrow functions
`(e) => this.clicked(e)` etc. in `onActivateEvent`). -/
inductive Handler where
  | clicked
  | release
  | enter
  | leave
  deriving DecidableEq, Repr

/-- Observable effects emitted by the widget: hook invocations and calls
into the external timer service and pointer-event registry. -/
inductive Effect where
  | clearTimeoutCall : Int → Effect
  | setTimeoutCall : Int → Nat → Effect
  | onClickCall : Effect
  | onOverCall : Effect
  | onOutCall : Effect
  | onReleaseCall : Effect
  | onHoldCall : Effect
  | registerPointerEventCall : PEvent → Handler → Effect
  | releasePointerEventCall : PEvent → Effect
  | superOnActivateEvent : Effect
  | superOnDeactivateEvent : Effect
  deriving DecidableEq, Repr

/-- The mutable fields of `UIBaseElement` (x, y, width, height are held by
the `Container` base; `dirty` is the base container's re-render flag that
the widget sets).  `holdTimeout` is the timer handle, with `-1` as the
"none" sentinel exactly as in the source. -/
structure UIBaseElement where
  x : Int
  y : Int
  width : Int
  height : Int
  isClickable : Bool
  holdThreshold : Nat
  isHoldable : Bool
  hover : Bool
  holdTimeout : Int
  released : Bool
  floating : Bool
  isKinematic : Bool
  dirty : Bool
  deriving DecidableEq, Repr

/-- Modelled from the spec: the external timer service
(`timer.setTimeout(callback, delayMs, repeat=false) -> handle` /
`timer.clearTimeout(handle)`, system/timer.js, absent from the provided
sources).  It hands out fresh non-negative integer handles and keeps the
list of still-scheduled one-shot timers; a cleared timer is removed and
hence can never fire. -/
structure TimerState where
  nextHandle : Int
  pending : List (Int × Nat)
  deriving DecidableEq, Repr

/-- Modelled from the spec: `timer.clearTimeout(handle)` removes the
scheduled timer with that handle, if any (a no-op on the `-1` sentinel,
which is never a real handle). -/
def TimerState.clearTimeout (t : TimerState) (h : Int) : TimerState :=
  { t with pending := t.pending.filter (fun p => p.1 != h) }

/-- Modelled from the spec: `timer.setTimeout(cb, delay, false)` schedules
a one-shot timer and returns a fresh handle. -/
def TimerState.setTimeout (t : TimerState) (delay : Nat) : Int × TimerState :=
  (t.nextHandle,
   { nextHandle := t.nextHandle + 1,
     pending := (t.nextHandle, delay) :: t.pending })

/-- Combined state: the widget plus the timer service it talks to. -/
structure S where
  widget : UIBaseElement
  timers : TimerState
  deriving DecidableEq, Repr

/-- Result of one callback: the new combined state, the effects emitted
(in order), and the JS return value (`none` models `undefined`). -/
structure Step where
  state : S
  trace : List Effect
  ret : Option Bool
  deriving DecidableEq, Repr

/-- Default `onClick` hook result: the source's `onClick` returns `false`. -/
def onClickRet : Option Bool := some false

/-- Default `onRelease` hook result: the source's `onRelease` returns `false`. -/
def onReleaseRet : Option Bool := some false

/-- Default `onOver` hook result: no return statement, i.e. `undefined`. -/
def onOverRet : Option Bool := none

/-- Default `onOut` hook result: no return statement, i.e. `undefined`. -/
def onOutRet : Option Bool := none

/-- The constructor of `UIBaseElement`: field initial values exactly as in
the source.  The base `Container` holds position and size; its initial
`dirty` value is external and irrelevant to the claims, taken as `false`. -/
def init (x y w h : Int) : UIBaseElement :=
  { x := x
    y := y
    width := w
    height := h
    isClickable := true
    holdThreshold := 250
    isHoldable := false
    hover := false
    holdTimeout := -1
    released := true
    floating := true
    isKinematic := false
    dirty := false }

/-- A freshly constructed widget together with a fresh timer service. -/
def initState (x y w h : Int) : S :=
  { widget := init x y w h
    timers := { nextHandle := 0, pending := [] } }

/-- `clicked(event)`: the pointerdown callback.  Guarded by
`event.button === 0 && this.isClickable`; marks dirty, sets
`released = false`; if holdable, clears any existing hold timer and arms a
new one for `holdThreshold` ms; returns the `onClick` hook result.
Outside the guard the JS function falls through and returns `undefined`. -/
def clicked (button : Int) (s : S) : Step :=
  if button = 0 ∧ s.widget.isClickable = true then
    if s.widget.isHoldable = true then
      let t1 := s.timers.clearTimeout s.widget.holdTimeout
      let hT := t1.setTimeout s.widget.holdThreshold
      { state :=
          { widget :=
              { s.widget with
                dirty := true
                released := false
                holdTimeout := hT.1 }
            timers := hT.2 }
        trace := [Effect.clearTimeoutCall s.widget.holdTimeout,
                  Effect.setTimeoutCall hT.1 s.widget.holdThreshold,
                  Effect.onClickCall]
        ret := onClickRet }
    else
      { state :=
          { widget := { s.widget with dirty := true, released := false }
            timers := s.timers }
        trace := [Effect.onClickCall]
        ret := onClickRet }
  else
    { state := s, trace := [], ret := none }

/-- `enter(event)`: the pointerenter callback.  Sets `hover = true`, marks
dirty, returns the `onOver` hook result. -/
def enter (s : S) : Step :=
  { state :=
      { widget := { s.widget with hover := true, dirty := true }
        timers := s.timers }
    trace := [Effect.onOverCall]
    ret := onOverRet }

/-- `release(event)`: the pointerup / pointercancel callback.  Only acts
when `released === false`: sets `released = true`, marks dirty, clears the
hold timer, resets the handle to the `-1` sentinel and returns the
`onRelease` hook result; otherwise it is a no-op returning `undefined`. -/
def release (s : S) : Step :=
  if s.widget.released = false then
    { state :=
        { widget :=
            { s.widget with
              released := true
              dirty := true
              holdTimeout := -1 }
          timers := s.timers.clearTimeout s.widget.holdTimeout }
      trace := [Effect.clearTimeoutCall s.widget.holdTimeout,
                Effect.onReleaseCall]
      ret := onReleaseRet }
  else
    { state := s, trace := [], ret := none }

/-- `leave(event)`: the pointerleave callback.  Sets `hover = false`,
marks dirty, performs `release`, then returns the `onOut` hook result. -/
def leave (s : S) : Step :=
  let r := release
    { widget := { s.widget with hover := false, dirty := true }
      timers := s.timers }
  { state := r.state
    trace := r.trace ++ [Effect.onOutCall]
    ret := onOutRet }

/-- `hold()`: the tap-and-hold timer callback.  Clears the timer, resets
the handle to the `-1` sentinel, marks dirty, and invokes `onHold` only if
`!this.released`. -/
def hold (s : S) : Step :=
  { state :=
      { widget := { s.widget with holdTimeout := -1, dirty := true }
        timers := s.timers.clearTimeout s.widget.holdTimeout }
    trace :=
      if s.widget.released = false then
        [Effect.clearTimeoutCall s.widget.holdTimeout, Effect.onHoldCall]
      else
        [Effect.clearTimeoutCall s.widget.holdTimeout]
    ret := none }

/-- Modelled from the spec: the timer service firing the one-shot timer
with handle `h`.  The callback of every timer armed by this widget is
`() => this.hold()`.  A timer fires only while still scheduled
(`clearTimeout` prevents a later fire); firing removes it from the
pending list and then runs `hold`. -/
def fireTimer (h : Int) (s : S) : Step :=
  if s.timers.pending.any (fun p => p.1 == h) then
    hold
      { widget := s.widget
        timers :=
          { s.timers with pending := s.timers.pending.filter (fun p => p.1 != h) } }
  else
    { state := s, trace := [], ret := none }

/-- `onActivateEvent()`: registers the five pointer-event callbacks (in
source order), then calls the base container's activation.  The registry
itself is external; the registrations are recorded as effects. -/
def onActivateEvent (s : S) : Step :=
  { state := s
    trace := [Effect.registerPointerEventCall PEvent.pointerdown Handler.clicked,
              Effect.registerPointerEventCall PEvent.pointerup Handler.release,
              Effect.registerPointerEventCall PEvent.pointercancel Handler.release,
              Effect.registerPointerEventCall PEvent.pointerenter Handler.enter,
              Effect.registerPointerEventCall PEvent.pointerleave Handler.leave,
              Effect.superOnActivateEvent]
    ret := none }

/-- `onDeactivateEvent()`: releases the five registrations, clears any
pending hold timer, resets the handle to the `-1` sentinel, then calls the
base container's deactivation. -/
def onDeactivateEvent (s : S) : Step :=
  { state :=
      { widget := { s.widget with holdTimeout := -1 }
        timers := s.timers.clearTimeout s.widget.holdTimeout }
    trace := [Effect.releasePointerEventCall PEvent.pointerdown,
              Effect.releasePointerEventCall PEvent.pointerup,
              Effect.releasePointerEventCall PEvent.pointercancel,
              Effect.releasePointerEventCall PEvent.pointerenter,
              Effect.releasePointerEventCall PEvent.pointerleave,
              Effect.clearTimeoutCall s.widget.holdTimeout,
              Effect.superOnDeactivateEvent]
    ret := none }

/-- Folding a sequence of pointerdown events (given by their button codes)
through `clicked`, accumulating the emitted effects. -/
def clickedSeq : List Int → S → S × List Effect
  | [], s => (s, [])
  | b :: bs, s =>
    let st := clicked b s
    let r := clickedSeq bs st.state
    (r.1, st.trace ++ r.2)

/-- Well-formedness of a combined state: every scheduled timer belongs to
the widget's current handle, at most one timer is scheduled, and handles
are issued fresh (the current handle, sentinel included, predates
`nextHandle`, which is non-negative).  Holds for `initState` and is
preserved by every operation. -/
def WF (s : S) : Prop :=
  (∀ p ∈ s.timers.pending, p.1 = s.widget.holdTimeout) ∧
  s.timers.pending.length ≤ 1 ∧
  0 ≤ s.timers.nextHandle ∧
  s.widget.holdTimeout < s.timers.nextHandle

instance (s : S) : Decidable (WF s) := by
  unfold WF; infer_instance

/-- The invariant of claim C3: a released widget has no hold timer handle. -/
def Inv (s : S) : Prop :=
  s.widget.released = true → s.widget.holdTimeout = -1

instance (s : S) : Decidable (Inv s) := by
  unfold Inv; infer_instance

/-- A freshly built holdable widget (concrete state used to instantiate
the hold-semantics theorem). -/
def exC1 : S :=
  { widget := { init 0 0 10 10 with isHoldable := true }
    timers := { nextHandle := 0, pending := [] } }

/-- A concrete pressed state with an armed hold timer (handle 5). -/
def exC2 : S :=
  { widget := { init 0 0 1 1 with released := false, holdTimeout := 5 }
    timers := { nextHandle := 6, pending := [(5, 250)] } }

/-- A concrete pressed holdable state with a pending hold timer (handle 0). -/
def exC4 : S :=
  { widget :=
      { init 0 0 8 8 with isHoldable := true, released := false, holdTimeout := 0 }
    timers := { nextHandle := 1, pending := [(0, 250)] } }

/-- A concrete pressed state with a pending hold timer (handle 7). -/
def exC6 : S :=
  { widget :=
      { init 2 3 4 5 with isHoldable := true, released := false, holdTimeout := 7 }
    timers := { nextHandle := 8, pending := [(7, 250)] } }

/-- A concrete pressed holdable state with a pending hold timer (handle 0). -/
def exC7 : S :=
  { widget :=
      { init 0 0 9 9 with isHoldable := true, released := false, holdTimeout := 0 }
    timers := { nextHandle := 1, pending := [(0, 250)] } }

/- Helper lemmas -/

theorem release_state_released (s : S) : (release s).state.widget.released = true := by
  unfold release
  by_cases hr : s.widget.released = false
  · simp [hr]
  · simp [hr]

theorem hold_trace_no_onHold (s : S) (hr : s.widget.released = true) :
    Effect.onHoldCall ∉ (hold s).trace := by
  simp [hold, hr]

theorem fireTimer_no_onHold (s : S) (hr : s.widget.released = true) (h : Int) :
    Effect.onHoldCall ∉ (fireTimer h s).trace := by
  unfold fireTimer
  split
  · exact hold_trace_no_onHold _ hr
  · simp

theorem filter_ne_self_eq_nil (l : List (Int × Nat)) (a : Int)
    (h : ∀ p ∈ l, p.1 = a) : l.filter (fun p => p.1 != a) = [] := by
  rw [List.filter_eq_nil_iff]
  intro p hp
  simp [h p hp]

/-- C9: after construction with any (x, y, w, h), the configuration fields
are exactly: isClickable = true, holdThreshold = 250, isHoldable = false,
hover = false, released = true, holdTimeout = -1 (the none sentinel),
floating = true, isKinematic = false. -/
theorem claim9_ctor_defaults (x y w h : Int) :
    (init x y w h).isClickable = true ∧
    (init x y w h).holdThreshold = 250 ∧
    (init x y w h).isHoldable = false ∧
    (init x y w h).hover = false ∧
    (init x y w h).released = true ∧
    (init x y w h).holdTimeout = -1 ∧
    (init x y w h).floating = true ∧
    (init x y w h).isKinematic = false :=
  ⟨rfl, rfl, rfl, rfl, rfl, rfl, rfl, rfl⟩

/-- C8: onActivateEvent registers exactly the five pointer-event callbacks
(pointerdown→clicked, pointerup→release, pointercancel→release,
pointerenter→enter, pointerleave→leave) and only then calls the base
container's activation; onDeactivateEvent releases exactly those five
registrations and cancels/clears the pending hold timer before calling the
base container's deactivation. -/
theorem claim8_lifecycle_registrations (s : S) :
    (onActivateEvent s).trace =
      [Effect.registerPointerEventCall PEvent.pointerdown Handler.clicked,
       Effect.registerPointerEventCall PEvent.pointerup Handler.release,
       Effect.registerPointerEventCall PEvent.pointercancel Handler.release,
       Effect.registerPointerEventCall PEvent.pointerenter Handler.enter,
       Effect.registerPointerEventCall PEvent.pointerleave Handler.leave,
       Effect.superOnActivateEvent] ∧
    (onActivateEvent s).state = s ∧
    (onDeactivateEvent s).trace =
      [Effect.releasePointerEventCall PEvent.pointerdown,
       Effect.releasePointerEventCall PEvent.pointerup,
       Effect.releasePointerEventCall PEvent.pointercancel,
       Effect.releasePointerEventCall PEvent.pointerenter,
       Effect.releasePointerEventCall PEvent.pointerleave,
       Effect.clearTimeoutCall s.widget.holdTimeout,
       Effect.superOnDeactivateEvent] ∧
    (onDeactivateEvent s).state.widget.holdTimeout = -1 ∧
    (onDeactivateEvent s).state.timers = s.timers.clearTimeout s.widget.holdTimeout :=
  ⟨rfl, rfl, rfl, rfl, rfl⟩

/-- C5: with a non-primary button (button ≠ 0), or with isClickable false,
the press handler is a no-op: the whole state (hence released, dirty,
hover and the hold-timer handle) is unchanged, no effect is emitted (in
particular onClick is not invoked) and it returns undefined. -/
theorem claim5_press_noop (s : S) (b : Int)
    (hb : b ≠ 0 ∨ s.widget.isClickable = false) :
    clicked b s = { state := s, trace := [], ret := none } ∧
    Effect.onClickCall ∉ (clicked b s).trace := by
  have hg : ¬(b = 0 ∧ s.widget.isClickable = true) := by
    rcases hb with hb | hb
    · exact fun hc => hb hc.1
    · intro hc
      rw [hb] at hc
      exact Bool.false_ne_true hc.2
  constructor
  · simp [clicked, hg]
  · simp [clicked, hg]

/-- C5 witness: a press with button 2 on a fresh widget is a no-op. -/
theorem claim5_press_noop_witness :
    clicked 2 (initState 1 2 3 4) =
      { state := initState 1 2 3 4, trace := [], ret := none } :=
  (claim5_press_noop (initState 1 2 3 4) 2 (Or.inl (by decide))).1

/-- C10: the hover flag is mutated only by enter (to true) and leave (to
false); clicked, release, hold, a timer fire, activation and deactivation
all leave hover unchanged. -/
theorem claim10_hover_frame (s : S) (b : Int) (h : Int) :
    (clicked b s).state.widget.hover = s.widget.hover ∧
    (release s).state.widget.hover = s.widget.hover ∧
    (hold s).state.widget.hover = s.widget.hover ∧
    (fireTimer h s).state.widget.hover = s.widget.hover ∧
    (onActivateEvent s).state.widget.hover = s.widget.hover ∧
    (onDeactivateEvent s).state.widget.hover = s.widget.hover ∧
    (enter s).state.widget.hover = true ∧
    (leave s).state.widget.hover = false := by
  refine ⟨?_, ?_, rfl, ?_, rfl, rfl, rfl, ?_⟩
  · unfold clicked
    split
    · split <;> rfl
    · rfl
  · unfold release
    split <;> rfl
  · unfold fireTimer
    split <;> rfl
  · unfold leave release
    dsimp only
    split <;> rfl

/-- C2: release is idempotent.  When released == false it sets released,
marks dirty, cancels and clears the hold timer, invokes onRelease exactly
once and returns its result; when released == true it changes nothing and
invokes no hook; hence an immediately repeated release invokes onRelease
zero further times. -/
theorem claim2_release_idempotent (s : S) :
    (s.widget.released = false →
      (release s).state.widget.released = true ∧
      (release s).state.widget.dirty = true ∧
      (release s).state.widget.holdTimeout = -1 ∧
      (release s).state.timers = s.timers.clearTimeout s.widget.holdTimeout ∧
      (release s).trace.count Effect.onReleaseCall = 1 ∧
      (release s).ret = onReleaseRet) ∧
    (s.widget.released = true →
      release s = { state := s, trace := [], ret := none }) ∧
    (release (release s).state).trace.count Effect.onReleaseCall = 0 := by
  refine ⟨?_, ?_, ?_⟩
  · intro hr
    simp [release, hr, List.count_cons]
  · intro hr
    simp [release, hr]
  · have h2 := release_state_released s
    generalize (release s).state = s2 at h2
    simp [release, h2]

/-- C2 witness: releasing a pressed widget sets released and a second
release invokes onRelease zero further times. -/
theorem claim2_release_idempotent_witness :
    (release exC2).state.widget.released = true ∧
    (release exC2).trace.count Effect.onReleaseCall = 1 ∧
    (release (release exC2).state).trace.count Effect.onReleaseCall = 0 := by
  have h := claim2_release_idempotent exC2
  exact ⟨(h.1 rfl).1, (h.1 rfl).2.2.2.2.1, h.2.2⟩

/-- C3: the invariant (released == true → holdTimeout == -1) holds after
construction and is preserved by clicked, enter, leave, release, hold,
onActivateEvent and onDeactivateEvent. -/
theorem claim3_released_no_timer_invariant (x y w h : Int) (s : S) (b : Int)
    (hInv : Inv s) :
    Inv (initState x y w h) ∧
    Inv (clicked b s).state ∧
    Inv (enter s).state ∧
    Inv (leave s).state ∧
    Inv (release s).state ∧
    Inv (hold s).state ∧
    Inv (onActivateEvent s).state ∧
    Inv (onDeactivateEvent s).state := by
  refine ⟨fun _ => rfl, ?_, ?_, ?_, ?_, fun _ => rfl, hInv, fun _ => rfl⟩
  · unfold Inv clicked
    by_cases hg : b = 0 ∧ s.widget.isClickable = true
    · by_cases hh : s.widget.isHoldable = true <;> simp [hg, hh]
    · simp [hg]
      exact hInv
  · intro hr
    exact hInv hr
  · unfold Inv leave release
    dsimp only
    by_cases hr : s.widget.released = false
    · simp [hr]
    · simp [hr]
      exact hInv (by simpa using hr)
  · unfold Inv release
    by_cases hr : s.widget.released = false
    · simp [hr]
    · simp [hr]
      exact hInv (by simpa using hr)

/-- C3 witness: the invariant holds for a fresh widget and is preserved by
a press on it. -/
theorem claim3_released_no_timer_invariant_witness :
    Inv (initState 1 1 1 1) ∧ Inv (clicked 0 (initState 0 0 4 3)).state := by
  have h := claim3_released_no_timer_invariant 1 1 1 1 (initState 0 0 4 3) 0 (by decide)
  exact ⟨h.1, h.2.1⟩

/-- C6: leave sets hover = false, marks dirty, performs a release (so
released == true afterwards; if a press was active the hold timer handle
is reset to -1 and the pending hold timer is cancelled), invokes the onOut
hook exactly once and returns its result. -/
theorem claim6_leave_forces_release (s : S) :
    (leave s).state.widget.hover = false ∧
    (leave s).state.widget.dirty = true ∧
    (leave s).state.widget.released = true ∧
    (s.widget.released = false →
      (leave s).state.widget.holdTimeout = -1 ∧
      ∀ d, (s.widget.holdTimeout, d) ∉ (leave s).state.timers.pending) ∧
    (leave s).trace.count Effect.onOutCall = 1 ∧
    (leave s).ret = onOutRet := by
  by_cases hr : s.widget.released = false
  · refine ⟨?_, ?_, ?_, ?_, ?_, rfl⟩ <;>
      simp [leave, release, hr, TimerState.clearTimeout, List.count_append,
        List.count_cons, List.mem_filter]
  · refine ⟨?_, ?_, ?_, ?_, ?_, rfl⟩ <;>
      simp [leave, release, hr, List.count_append, List.count_cons]

/-- C6 witness: leaving a pressed widget with a pending hold timer ends
released with the timer handle cleared and the scheduled timer cancelled. -/
theorem claim6_leave_forces_release_witness :
    (leave exC6).state.widget.released = true ∧
    (leave exC6).state.widget.holdTimeout = -1 ∧
    (exC6.widget.holdTimeout, 250) ∉ (leave exC6).state.timers.pending := by
  have h := claim6_leave_forces_release exC6
  exact ⟨h.2.2.1, (h.2.2.2.1 rfl).1, (h.2.2.2.1 rfl).2 250⟩

/-- C4: deactivating a well-formed state (in particular one with a pending
hold timer) leaves no dangling timer: afterwards holdTimeout is the -1
sentinel and nothing remains scheduled, so any simulated timer fire is a
no-op and never invokes onHold. -/
theorem claim4_deactivate_no_dangling_timer (s : S) (hWF : WF s) :
    (onDeactivateEvent s).state.widget.holdTimeout = -1 ∧
    (onDeactivateEvent s).state.timers.pending = [] ∧
    ∀ h, Effect.onHoldCall ∉ (fireTimer h (onDeactivateEvent s).state).trace := by
  have hp : (onDeactivateEvent s).state.timers.pending = [] := by
    simp only [onDeactivateEvent, TimerState.clearTimeout]
    exact filter_ne_self_eq_nil _ _ hWF.1
  refine ⟨rfl, hp, ?_⟩
  intro h
  unfold fireTimer
  rw [hp]
  simp

/-- C4 witness: deactivating a pressed widget with a pending hold timer
clears the handle, and firing the old timer afterwards does not invoke
onHold. -/
theorem claim4_deactivate_no_dangling_timer_witness :
    (onDeactivateEvent exC4).state.widget.holdTimeout = -1 ∧
    Effect.onHoldCall ∉ (fireTimer 0 (onDeactivateEvent exC4).state).trace := by
  have h := claim4_deactivate_no_dangling_timer exC4 (by decide)
  exact ⟨h.1, h.2.2 0⟩

theorem clicked_not_holdable (b : Int) (s : S) (h : s.widget.isHoldable = false) :
    (clicked b s).state.widget.isHoldable = false ∧
    (clicked b s).state.widget.holdTimeout = s.widget.holdTimeout ∧
    ∀ hh d, Effect.setTimeoutCall hh d ∉ (clicked b s).trace := by
  by_cases hg : b = 0 ∧ s.widget.isClickable = true
  · simp [clicked, hg, h]
  · simp [clicked, hg, h]

theorem clickedSeq_not_holdable : ∀ (bs : List Int) (s : S),
    s.widget.isHoldable = false →
    (∀ hh d, Effect.setTimeoutCall hh d ∉ (clickedSeq bs s).2) ∧
    (clickedSeq bs s).1.widget.holdTimeout = s.widget.holdTimeout := by
  intro bs
  induction bs with
  | nil =>
    intro s h
    simp [clickedSeq]
  | cons b bs ih =>
    intro s h
    have h1 := clicked_not_holdable b s h
    have h2 := ih (clicked b s).state h1.1
    refine ⟨?_, ?_⟩
    · intro hh d
      simp only [clickedSeq, List.mem_append]
      intro hmem
      rcases hmem with hmem | hmem
      · exact h1.2.2 hh d hmem
      · exact h2.1 hh d hmem
    · simp only [clickedSeq]
      exact h2.2.trans h1.2.1

/-- C7: with isHoldable false, no sequence of presses ever calls
timer.setTimeout and the handle stays at the -1 sentinel; with isHoldable
true, re-pressing while a timer is pending in a well-formed state cancels
it and arms exactly one new timer (never two pending). -/
theorem claim7_timer_arming (s : S) :
    (s.widget.isHoldable = false → s.widget.holdTimeout = -1 →
      ∀ bs : List Int,
        (∀ hh d, Effect.setTimeoutCall hh d ∉ (clickedSeq bs s).2) ∧
        (clickedSeq bs s).1.widget.holdTimeout = -1) ∧
    (WF s → s.widget.isClickable = true → s.widget.isHoldable = true →
      ∀ hh d, (hh, d) ∈ s.timers.pending →
        (clicked 0 s).state.timers.pending =
          [(s.timers.nextHandle, s.widget.holdThreshold)] ∧
        (hh, d) ∉ (clicked 0 s).state.timers.pending) := by
  constructor
  · intro h hT bs
    obtain ⟨ha, hb⟩ := clickedSeq_not_holdable bs s h
    exact ⟨ha, hb.trans hT⟩
  · intro hWF hC hH hh d hmem
    have hfil := filter_ne_self_eq_nil s.timers.pending s.widget.holdTimeout hWF.1
    have hg : (0 : Int) = 0 ∧ s.widget.isClickable = true := ⟨rfl, hC⟩
    have hhh : hh = s.widget.holdTimeout := hWF.1 (hh, d) hmem
    have hlt := hWF.2.2.2
    constructor
    · simp [clicked, hg, hH, TimerState.setTimeout, TimerState.clearTimeout, hfil]
    · simp [clicked, hg, hH, TimerState.setTimeout, TimerState.clearTimeout, hfil,
        Prod.ext_iff]
      intro hcon
      omega

/-- C7 witness: two presses on a fresh (non-holdable) widget arm nothing,
and a re-press on a pressed holdable widget with a pending timer leaves
exactly one (new) timer scheduled, the old one cancelled. -/
theorem claim7_timer_arming_witness :
    (clickedSeq [0, 0, 1] (initState 0 0 5 5)).1.widget.holdTimeout = -1 ∧
    Effect.setTimeoutCall 0 250 ∉ (clickedSeq [0, 0, 1] (initState 0 0 5 5)).2 ∧
    (clicked 0 exC7).state.timers.pending =
      [(exC7.timers.nextHandle, exC7.widget.holdThreshold)] ∧
    (0, 250) ∉ (clicked 0 exC7).state.timers.pending := by
  have h1 := (claim7_timer_arming (initState 0 0 5 5)).1 rfl rfl [0, 0, 1]
  have h2 := (claim7_timer_arming exC7).2 (by decide) rfl rfl 0 250 (by decide)
  exact ⟨h1.2, h1.1 0 250, h2.1, h2.2⟩

/-- C1: the hold-timer fire handler clears the handle to the -1 sentinel,
marks dirty, and invokes onHold iff released == false at fire time; with
isHoldable true, a press followed by a release before the timer fires
never leads to an onHold invocation, and a press whose timer then fires
invokes onHold exactly once for that press cycle (further fires invoke
nothing). -/
theorem claim1_hold_fire_semantics (s : S) (b : Int) :
    ((hold s).state.widget.holdTimeout = -1 ∧
     (hold s).state.widget.dirty = true ∧
     (Effect.onHoldCall ∈ (hold s).trace ↔ s.widget.released = false)) ∧
    (∀ h, Effect.onHoldCall ∉
      (fireTimer h (release (clicked b s).state).state).trace) ∧
    (WF s → s.widget.isHoldable = true → s.widget.isClickable = true →
      (fireTimer (clicked 0 s).state.widget.holdTimeout
          (clicked 0 s).state).trace.count Effect.onHoldCall = 1 ∧
      ∀ h2, Effect.onHoldCall ∉
        (fireTimer h2
          (fireTimer (clicked 0 s).state.widget.holdTimeout
            (clicked 0 s).state).state).trace) := by
  refine ⟨⟨rfl, rfl, ?_⟩, ?_, ?_⟩
  · by_cases hr : s.widget.released = false <;> simp [hold, hr]
  · intro h
    exact fireTimer_no_onHold _ (release_state_released _) h
  · intro hWF hH hC
    have hg : (0 : Int) = 0 ∧ s.widget.isClickable = true := ⟨rfl, hC⟩
    have hfil := filter_ne_self_eq_nil s.timers.pending s.widget.holdTimeout hWF.1
    have hst : (clicked 0 s).state =
        { widget :=
            { s.widget with
              dirty := true
              released := false
              holdTimeout := s.timers.nextHandle }
          timers :=
            { nextHandle := s.timers.nextHandle + 1
              pending := [(s.timers.nextHandle, s.widget.holdThreshold)] } } := by
      simp [clicked, hg, hH, TimerState.setTimeout, TimerState.clearTimeout, hfil]
    rw [hst]
    constructor
    · simp [fireTimer, hold, TimerState.clearTimeout, List.count_cons]
    · intro h2
      simp [fireTimer, hold, TimerState.clearTimeout]

/-- C1 witness: on a fresh holdable widget, the fire handler's onHold
invocation tracks released; pressing and firing the armed timer invokes
onHold exactly once. -/
theorem claim1_hold_fire_semantics_witness :
    (Effect.onHoldCall ∈ (hold exC1).trace ↔ exC1.widget.released = false) ∧
    Effect.onHoldCall ∉ (fireTimer 0 (release (clicked 0 exC1).state).state).trace ∧
    (fireTimer (clicked 0 exC1).state.widget.holdTimeout
        (clicked 0 exC1).state).trace.count Effect.onHoldCall = 1 := by
  have h := claim1_hold_fire_semantics exC1 0
  exact ⟨h.1.2.2, h.2.1 0, (h.2.2 (by decide) (by decide) (by decide)).1⟩

end UIBase
